import Mathlib

/-!
Verification of the container/mount subsystem of the clipos toolkit
(`cosmk`).  The Python modules `cosmk/mount.py`, `cosmk/fs.py`,
`cosmk/container.py` and `clipostoolkit/cosmk/sdk.py` are shallowly
embedded: pure computations (path normalization, validation, runtime
configuration generation) become Lean functions; calls to external
processes (mount, losetup, mksquashfs, runc) and filesystem probes are
represented by explicit oracle ("world") records carrying the outcome of
each external step, and the embedded functions return both their result
(`Except` for Python exceptions) and a trace of the external actions
actually issued.
-/

/-- Exception taxonomy of the toolkit (`exceptions.py` plus Python
builtins raised by the modeled code paths).  `sessionStateError` does not
correspond to any class in the source code: it exists only so that the
specification sentence about a `SessionStateError` can be stated and
compared against what the code actually raises. -/
inductive CosmkErr where
  | valueError (msg : String)
  | cosmkError (msg : String)
  | cosmkEnvironmentError (msg : String)
  | containerSnapshotError (msg : String)
  | systemCommandError (cmd : List String) (reason : String)
  | fileNotFoundError (path : String)
  | sessionStateError (msg : String)
deriving DecidableEq

/-- `e.isValidationError` holds for the Python `ValueError` (the error
class the specification calls ValidationError). -/
def CosmkErr.isValidationError : CosmkErr → Bool
  | .valueError _ => true
  | _ => false

/-- Does this error correspond to the `CosmkEnvironmentError` class
(the class the specification calls EnvironmentError)? -/
def CosmkErr.isEnvironmentError : CosmkErr → Bool
  | .cosmkEnvironmentError _ => true
  | _ => false

/-- Does this error correspond to the specification's SessionStateError
taxon (no source class implements it)? -/
def CosmkErr.isSessionStateErr : CosmkErr → Bool
  | .sessionStateError _ => true
  | _ => false

deriving instance DecidableEq for Except

/-! ## Model of `os.path` (posixpath)

`os.path.abspath` depends on the process working directory, which the
embedding threads explicitly as a `cwd` argument. -/

/-- Split a character list on a separator character, keeping empty
fields, as Python `str.split` with a one-character separator does. -/
def splitChar (c : Char) : List Char → List (List Char)
  | [] => [[]]
  | x :: xs =>
    match splitChar c xs with
    | [] => if x == c then [[], []] else [[x]]
    | y :: ys => if x == c then [] :: y :: ys else (x :: y) :: ys

/-- `posixpath.isabs`. -/
def isabs (p : String) : Bool :=
  match p.data with
  | c :: _ => c == '/'
  | [] => false

/-- Does the string end with a slash (used by `posixpath.join`)? -/
def endsWithSlash (a : String) : Bool :=
  match a.data.getLast? with
  | some c => c == '/'
  | none => false

/-- `posixpath.join` restricted to two components, as used by `abspath`. -/
def joinPath (a b : String) : String :=
  if isabs b then b
  else if a = "" || endsWithSlash a then a ++ b
  else a ++ "/" ++ b

/-- The component-filtering loop of `posixpath.normpath`: drops empty and
`.` components and resolves `..` against the accumulated components. -/
def normComps (initialSlashes : Nat) (comps : List (List Char)) :
    List (List Char) :=
  comps.foldl
    (fun acc comp =>
      if comp == [] || comp == ['.'] then acc
      else if comp != ['.', '.'] || (initialSlashes == 0 && acc.isEmpty) ||
          (!acc.isEmpty && acc.getLast? == some ['.', '.']) then acc ++ [comp]
      else if !acc.isEmpty then acc.dropLast
      else acc)
    []

/-- Interleave a separator character between the fields. -/
def intercalateChar (c : Char) : List (List Char) → List Char
  | [] => []
  | [x] => x
  | x :: xs => x ++ c :: intercalateChar c xs

/-- `posixpath.normpath`. -/
def normpath (path : String) : String :=
  if path = "" then "."
  else
    let initialSlashes : Nat :=
      match path.data with
      | '/' :: '/' :: '/' :: _ => 1
      | '/' :: '/' :: _ => 2
      | '/' :: _ => 1
      | _ => 0
    let comps := splitChar '/' path.data
    let joined := intercalateChar '/' (normComps initialSlashes comps)
    let withSlashes := List.replicate initialSlashes '/' ++ joined
    if withSlashes.isEmpty then "." else String.mk withSlashes

/-- `posixpath.abspath`, with the process working directory made
explicit. -/
def abspath (cwd p : String) : String :=
  normpath (if isabs p then p else joinPath cwd p)

/-! ## `mount.py`: the generic `Mountpoint` primitive -/

/-- The comma check of `Mountpoint.__init__` / `mount()`:
`options and any("," in x for x in options)`. -/
def commaInOptions : Option (List String) → Bool
  | some os => os.any (fun o => o.data.contains ',')
  | none => false

/-- Error message raised when a mount option contains a comma
(`mount.py`). -/
def commaOptionMsg : String :=
  "A mount option contains a comma which serves as a separator for the mount options in the underlying mount command. Therefore, it cannot be used as part of any mount option."

/-- `mount.Mountpoint` after a successful `__init__`. -/
structure Mountpoint where
  source : String
  target : String
  type : Option String
  options : Option (List String)
deriving DecidableEq

/-- `Mountpoint.__init__` (`mount.py`): stores the source verbatim,
normalizes the target with `os.path.abspath` and raises `ValueError` when
an option contains a comma. -/
def Mountpoint.init (cwd source target : String) (type : Option String)
    (options : Option (List String)) : Except CosmkErr Mountpoint :=
  if commaInOptions options then .error (.valueError commaOptionMsg)
  else .ok { source := source, target := abspath cwd target,
             type := type, options := options }

/-- `mount.mount()`: either the `ValueError` for a comma-carrying option
or the `mount(8)` command line that gets executed. -/
def mountCmdline (cwd source target : String) (type : Option String)
    (options : Option (List String)) : Except CosmkErr (List String) :=
  let cmd := ["mount"] ++
    (match type with
     | some t => if t = "" then [] else ["-t", t]
     | none => [])
  match options with
  | some os =>
    if os = [] then .ok (cmd ++ [source, abspath cwd target])
    else if os.any (fun o => o.data.contains ',') then .error (.valueError commaOptionMsg)
    else .ok (cmd ++ ["-o", String.intercalate "," os] ++
              [source, abspath cwd target])
  | none => .ok (cmd ++ [source, abspath cwd target])

/-- System calls issued by constructing a `Mountpoint` and entering it:
a failed construction issues none. -/
def mountpointEnterCmds (cwd : String) (r : Except CosmkErr Mountpoint) :
    List (List String) :=
  match r with
  | .error _ => []
  | .ok m =>
    match mountCmdline cwd m.source m.target m.type m.options with
    | .error _ => []
    | .ok cmd => [cmd]

/-! ## `container.py`: `ContainerMountpoint` -/

/-- `container.ContainerMountpoint` after a successful `__init__`. -/
structure ContainerMountpoint where
  source : String
  target : String
  type : Option String
  options : Option (List String)
deriving DecidableEq

/-- `ContainerMountpoint.__init__` (`container.py`): unlike the generic
`Mountpoint`, it rejects a target that is not already absolute and
normalized, then applies the same comma check on the options. -/
def ContainerMountpoint.init (cwd source target : String)
    (type : Option String) (options : Option (List String)) :
    Except CosmkErr ContainerMountpoint :=
  if abspath cwd target ≠ target then
    .error (.valueError "target must be an absolute and normalized path")
  else if commaInOptions options then .error (.valueError commaOptionMsg)
  else .ok { source := source, target := target,
             type := type, options := options }

/-- Entry of the `mounts` array of the runc configuration
(`ContainerMountpoint.as_dict`): `type` and `options` keys are omitted
when falsy. -/
structure MountDict where
  source : String
  destination : String
  type : Option String
  options : Option (List String)
deriving DecidableEq

/-- `ContainerMountpoint.as_dict`. -/
def ContainerMountpoint.as_dict (m : ContainerMountpoint) : MountDict :=
  { source := m.source
    destination := m.target
    type := match m.type with
            | some t => if t = "" then none else some t
            | none => none
    options := match m.options with
               | some os => if os = [] then none else some os
               | none => none }

/-! ## `container.py`: `ContainerDeviceBinding` (post-construction state) -/

/-- `container.ContainerDeviceBinding` after `__init__` captured the host
device status (major/minor, mode, owner, char-vs-block kind). -/
structure ContainerDeviceBinding where
  host_device : String
  container_device : String
  device_type : String
  device_major : Nat
  device_minor : Nat
  filemode : Nat
  uid : Nat
  gid : Nat
deriving DecidableEq

/-- Entry of the `linux.devices` array of the runc configuration
(`ContainerDeviceBinding.as_dict`). -/
structure DeviceDict where
  path : String
  type : String
  major : Nat
  minor : Nat
  fileMode : Nat
  uid : Nat
  gid : Nat
deriving DecidableEq

/-- `ContainerDeviceBinding.as_dict`. -/
def ContainerDeviceBinding.as_dict (d : ContainerDeviceBinding) : DeviceDict :=
  { path := d.container_device, type := d.device_type,
    major := d.device_major, minor := d.device_minor,
    fileMode := d.filemode, uid := d.uid, gid := d.gid }

/-- Entry of the `linux.resources.devices` array: the deny-all rule has no
type/major/minor keys, the per-binding allow rules do. -/
structure CgroupDeviceRule where
  allow : Bool
  type : Option String
  major : Option Nat
  minor : Option Nat
  access : String
deriving DecidableEq

/-- `ContainerDeviceBinding.cgroup_authorization_dict`. -/
def ContainerDeviceBinding.cgroup_authorization_dict
    (d : ContainerDeviceBinding) : CgroupDeviceRule :=
  { allow := true, type := some d.device_type, major := some d.device_major,
    minor := some d.device_minor, access := "rwm" }

/-! ## `container.py`: `Container` -/

/-- Default capability set from `Container.__init__` (written here in the
order of the source literal; the source stores it as a Python set). -/
def defaultCapabilities : List String :=
  ["CAP_CHOWN", "CAP_DAC_OVERRIDE", "CAP_FSETID", "CAP_FOWNER", "CAP_MKNOD",
   "CAP_SETGID", "CAP_SETUID", "CAP_SETFCAP", "CAP_SETPCAP",
   "CAP_SYS_CHROOT", "CAP_KILL", "CAP_AUDIT_WRITE"]

/-- Default environment of container run sessions (`Container.__init__`). -/
def defaultEnv : List (String × String) :=
  [("PATH", "/usr/local/sbin:/usr/local/bin:/usr/sbin:/usr/bin:/sbin:/bin"),
   ("TERM", "xterm")]

/-- `container.Container` state: the constructor-validated fields plus the
mutable `additional_mountpoints` / `device_bindings` lists that callers
(such as `Sdk`) assign after construction. -/
structure Container where
  name : String
  rootfs : String
  hostname : String
  readonly_root : Bool
  shared_host_netns : Bool
  capabilities : List String
  additional_mountpoints : List ContainerMountpoint
  device_bindings : List ContainerDeviceBinding
  default_env : List (String × String)
deriving DecidableEq

/-- The name validation of `Container.__init__`: Python
`re.match` with pattern anchored on both sides; `$` also matches just
before a single trailing newline. -/
def validContainerName (s : String) : Bool :=
  let core := if s.data.getLast? == some '\n' then s.data.dropLast else s.data
  !core.isEmpty && core.all (fun c =>
    c.isAlpha || c.isDigit || c == '.' || c == '_' || c == '-')

/-- `Container.__init__`. -/
def Container.init (name rootfs : String) (hostname : Option String)
    (readonly_root shared_host_netns : Bool) : Except CosmkErr Container :=
  if !validContainerName name then
    .error (.valueError "container name is invalid")
  else
    .ok { name := name, rootfs := rootfs,
          hostname := hostname.getD name,
          readonly_root := readonly_root,
          shared_host_netns := shared_host_netns,
          capabilities := defaultCapabilities,
          additional_mountpoints := [],
          device_bindings := [],
          default_env := defaultEnv }

/-- `Container.unshared_namespaces`: the source builds a Python set from
the list, so the embedding returns a `Finset`. -/
def Container.unshared_namespaces (c : Container) : Finset String :=
  (["pid", "ipc", "uts", "mount"] ++
    (if !c.shared_host_netns then ["network"] else [])).toFinset

/-- `Container.required_mountpoints`: the fixed list of default system
mountpoints (the Python property ignores `self`). -/
def Container.required_mountpoints : List ContainerMountpoint :=
  [{ source := "proc", target := "/proc", type := some "proc",
     options := none },
   { source := "tmpfs", target := "/dev", type := some "tmpfs",
     options := some ["nosuid", "strictatime", "mode=755", "size=65536k"] },
   { source := "devpts", target := "/dev/pts", type := some "devpts",
     options := some ["nosuid", "noexec", "newinstance", "ptmxmode=0666",
                      "mode=0620", "gid=5"] },
   { source := "shm", target := "/dev/shm", type := some "tmpfs",
     options := some ["nosuid", "noexec", "nodev", "mode=1777",
                      "size=65536k"] },
   { source := "mqueue", target := "/dev/mqueue", type := some "mqueue",
     options := some ["nosuid", "noexec", "nodev"] },
   { source := "sysfs", target := "/sys", type := some "sysfs",
     options := some ["nosuid", "noexec", "nodev", "ro"] },
   { source := "cgroup", target := "/sys/fs/cgroup", type := some "cgroup",
     options := some ["nosuid", "noexec", "nodev", "relatime", "ro"] }]

/-- `Container.mountpoints`: the source returns
`self.additional_mountpoints + self.required_mountpoints`. -/
def Container.mountpoints (c : Container) : List ContainerMountpoint :=
  c.additional_mountpoints ++ Container.required_mountpoints

/-! ## `container.py`: runc configuration generation -/

/-- The `process.user` object of the runc configuration. -/
structure RuncUser where
  uid : Int
  gid : Int
deriving DecidableEq

/-- The `process.rlimits` entries of the runc configuration. -/
structure RuncRlimit where
  type : String
  hard : Nat
  soft : Nat
deriving DecidableEq

/-- The `process` object of the runc configuration. -/
structure RuncProcess where
  terminal : Bool
  user : RuncUser
  args : List String
  env : List String
  cwd : String
  capBounding : List String
  capEffective : List String
  capInheritable : List String
  capPermitted : List String
  capAmbiant : List String
  rlimits : List RuncRlimit
  noNewPrivileges : Bool
deriving DecidableEq

/-- The `root` object of the runc configuration. -/
structure RuncRoot where
  path : String
  readonly : Bool
deriving DecidableEq

/-- The `linux` object of the runc configuration.  The `namespaces` array
is produced by iterating a Python set, so it is embedded as the `Finset`
of namespace type names. -/
structure RuncLinux where
  devices : List DeviceDict
  resourcesDevices : List CgroupDeviceRule
  namespaces : Finset String
  maskedPaths : List String
  readonlyPaths : List String

/-- The runc `config.json` document built by `Container._runc_config`. -/
structure RuncConfig where
  ociVersion : String
  process : RuncProcess
  root : RuncRoot
  hostname : String
  mounts : List MountDict
  linux : RuncLinux

/-- `Container._runc_config`: translate the container and one invocation
tuple into the runc configuration document. -/
def Container.runcConfig (c : Container) (command : List String)
    (env : List (String × String)) (cwd : String) (terminal : Bool)
    (user : Int × Int) : RuncConfig :=
  { ociVersion := "1.0.0"
    process :=
      { terminal := terminal
        user := { uid := user.1, gid := user.2 }
        args := command
        env := env.map (fun kv => kv.1 ++ "=" ++ kv.2)
        cwd := cwd
        capBounding := c.capabilities
        capEffective := c.capabilities
        capInheritable := c.capabilities
        capPermitted := c.capabilities
        capAmbiant := c.capabilities
        rlimits := [{ type := "RLIMIT_NOFILE", hard := 4096, soft := 4096 }]
        noNewPrivileges := true }
    root := { path := "rootfs", readonly := false }
    hostname := c.hostname
    mounts := c.mountpoints.map ContainerMountpoint.as_dict
    linux :=
      { devices := c.device_bindings.map ContainerDeviceBinding.as_dict
        resourcesDevices :=
          { allow := false, type := none, major := none, minor := none,
            access := "rwm" } ::
          c.device_bindings.map
            ContainerDeviceBinding.cgroup_authorization_dict
        namespaces := c.unshared_namespaces
        maskedPaths :=
          ["/proc/kcore", "/proc/latency_stats", "/proc/timer_list",
           "/proc/timer_stats", "/proc/sched_debug", "/sys/firmware",
           "/proc/scsi"]
        readonlyPaths :=
          ["/proc/asound", "/proc/bus", "/proc/fs", "/proc/irq",
           "/proc/sys", "/proc/sysrq-trigger"] } }

/-! ## `container.py`: `ContainerSession` -/

/-- `container.ContainerSession` as handed out by `Container.session`:
the bundle directory name doubles as the runc instance name. -/
structure ContainerSession where
  container : Container
  bundle_dir : String
  runc_container_name : String

/-- Python `dict.copy()` followed by `dict.update(overrides)` on an
insertion-ordered association list: existing keys keep their position and
take the overriding value, new keys are appended in override order. -/
def dictUpdate (base overrides : List (String × String)) :
    List (String × String) :=
  base.map (fun kv =>
    match overrides.lookup kv.1 with
    | some v => (kv.1, v)
    | none => kv) ++
  overrides.filter (fun kv => (base.lookup kv.1).isNone)

/-- Oracle for one `ContainerSession.run` invocation: which runc binary
`shutil.which` finds, whether the bundle directory still exists (it is
deleted when `Container.session` closes), and the outcome of the
`runc run` command. -/
structure RunWorld where
  runcBin : Option String
  bundleDirExists : Bool
  runcRunResult : Except CosmkErr Unit

/-- `ContainerSession.run`: locate the runc binary, generate the runc
configuration, serialize it as `config.json` inside the bundle directory
(Python `open(..., "w")` raises `FileNotFoundError` when the directory no
longer exists), then execute `runc run`.  On success the value is the
configuration that was serialized. -/
def ContainerSession.run (sess : ContainerSession) (w : RunWorld)
    (command : List String) (cwd : String) (env : List (String × String))
    (terminal : Bool) (user : Int × Int) : Except CosmkErr RuncConfig :=
  match w.runcBin with
  | none =>
    .error (.cosmkEnvironmentError "cannot found runc or docker-runc binary")
  | some _ =>
    let fullEnv := dictUpdate sess.container.default_env env
    let cfg := sess.container.runcConfig command fullEnv cwd terminal user
    if !w.bundleDirExists then
      .error (.fileNotFoundError (sess.bundle_dir ++ "/config.json"))
    else
      match w.runcRunResult with
      | .error e => .error e
      | .ok () => .ok cfg

/-! ## `fs.py`: `mksquashfs` and snapshotting -/

/-- Filesystem actions performed by the `mksquashfs` wrapper. -/
inductive FsAction where
  | removeFile (path : String)
  | runCmd (cmd : List String)
deriving DecidableEq

/-- Oracle for one `mksquashfs` call: whether the source is a directory,
whether a file already exists at the output path, and the outcome of the
external `mksquashfs` command. -/
structure FsWorld where
  sourceIsDir : Bool
  outputExists : Bool
  mksquashfsResult : Except CosmkErr Unit

/-- `fs.mksquashfs`: validate the source directory, delete a pre-existing
output file, then run the external compressor; returns the actions
performed alongside the outcome. -/
def mksquashfs (w : FsWorld) (squashfs_file source_dir compressor : String)
    (store_xattrs detect_sparse_files compress_inode_table
     compress_data_blocks compress_fragment_blocks
     compress_extended_attributes find_duplicates : Bool) :
    List FsAction × Except CosmkErr Unit :=
  if !w.sourceIsDir then
    ([], .error (.valueError "source_dir must be a path to a valid directory"))
  else
    let pre := if w.outputExists then [FsAction.removeFile squashfs_file]
               else []
    let opts :=
      ["-comp", compressor] ++
      [if store_xattrs then "-xattrs" else "-no-xattrs"] ++
      (if !compress_inode_table then ["-noI"] else []) ++
      (if !compress_data_blocks then ["-noD"] else []) ++
      (if !compress_fragment_blocks then ["-noF"] else []) ++
      (if !compress_extended_attributes then ["-noX"] else []) ++
      (if !detect_sparse_files then ["-no-sparse"] else []) ++
      (if !find_duplicates then ["-noappend"] else [])
    (pre ++ [FsAction.runCmd (["mksquashfs", source_dir, squashfs_file] ++
                              opts)],
     w.mksquashfsResult)

/-- `ContainerSession.snapshot`: refuse when the underlying container has
a read-only rootfs, otherwise compress the assembled rootfs directory,
wrapping any failure of the compression step into
`ContainerSnapshotError`. -/
def ContainerSession.snapshot (sess : ContainerSession) (w : FsWorld)
    (squashfs_filepath : String) : List FsAction × Except CosmkErr Unit :=
  if sess.container.readonly_root then
    ([], .error (.containerSnapshotError
      "Underlying container has a readonly rootfs. What do you expect to be different from the image that originated this container?"))
  else
    let r := mksquashfs w squashfs_filepath (sess.bundle_dir ++ "/rootfs")
      "gzip" true true false false false false true
    (r.1,
     match r.2 with
     | .ok () => .ok ()
     | .error _ => .error (.containerSnapshotError
         "could not produce a squashfs image file from the rootfs of this container session"))

/-! ## `fs.py`: `LoopDevice` -/

/-- `fs.LoopDevice` state (also the record shape returned by the
`loop_devices()` table scan). -/
structure LoopDevice where
  backfile : String
  device : Option String
  readonly : Bool
deriving DecidableEq

/-- `LoopDevice.__init__`: both paths are taken through
`os.path.abspath`. -/
def LoopDevice.init (cwd backfile : String) (device : Option String)
    (readonly : Bool) : LoopDevice :=
  { backfile := abspath cwd backfile,
    device := device.map (abspath cwd),
    readonly := readonly }

/-- Error message of `LoopDevice.__exit__` when no device node is
recorded. -/
def noDeviceAttrMsg : String := "object has no device attr properly set"

/-- Oracle for `LoopDevice.__enter__`: the outcome of the `losetup`
attach command and the loop-device table returned by the
`loop_devices()` scan performed right after the attach. -/
structure LoopWorld where
  attachResult : Except CosmkErr Unit
  table : List LoopDevice

/-- `LoopDevice.__enter__`: run the attach; when no device node was
supplied, rescan the loop-device table in reverse and take the first
entry whose backing file matches.  Any failure inside that discovery
triggers the cleanup `self.__exit__`, which itself raises `CosmkError`
because `self.device` is still `None` — that cleanup error is the one
that propagates (Python exception replacement inside an `except` block)
and nothing gets detached.  The second component is the list of device
nodes passed to `losetup -d`. -/
def LoopDevice.enter (cwd : String) (self : LoopDevice) (w : LoopWorld) :
    Except CosmkErr LoopDevice × List String :=
  match w.attachResult with
  | .error e => (.error e, [])
  | .ok () =>
    match self.device with
    | some _ => (.ok self, [])
    | none =>
      match w.table.reverse.find? (fun l => l.backfile == self.backfile) with
      | some l =>
        match l.device with
        | some d => (.ok { self with device := some (abspath cwd d) }, [])
        | none => (.error (.cosmkError noDeviceAttrMsg), [])
      | none => (.error (.cosmkError noDeviceAttrMsg), [])

/-- `LoopDevice.__exit__`: raise when no device node is recorded,
otherwise run `losetup -d` on it (outcome injected); the second component
records the device nodes handed to `losetup -d`. -/
def LoopDevice.exit (self : LoopDevice)
    (detachResult : Except CosmkErr Unit) :
    Except CosmkErr Unit × List String :=
  match self.device with
  | none => (.error (.cosmkError noDeviceAttrMsg), [])
  | some d => (detachResult, [d])

/-! ## `fs.py`: `SquashfsMount` -/

/-- `fs.SquashfsMount` state after `__init__`. -/
structure SquashfsMount where
  squashfile : String
  mountpoint : String
deriving DecidableEq

/-- `SquashfsMount.__init__`. -/
def SquashfsMount.init (cwd squashfile mountpoint : String) :
    SquashfsMount :=
  { squashfile := abspath cwd squashfile,
    mountpoint := abspath cwd mountpoint }

/-- Oracle for `SquashfsMount.__enter__`: the loop-device world, the
outcome of the squashfs `mount` command and the outcome of the `losetup
-d` issued if cleanup is needed. -/
structure SquashfsWorld where
  loop : LoopWorld
  mountResult : Except CosmkErr Unit
  detachResult : Except CosmkErr Unit

/-- `SquashfsMount.__enter__`: attach a read-only loop device over the
image, then mount it; if anything after the attach fails, detach the
loop device before propagating (a failure of the detach itself replaces
the in-flight error, as in Python).  The second component is the list of
device nodes handed to `losetup -d`. -/
def SquashfsMount.enter (cwd : String) (self : SquashfsMount)
    (w : SquashfsWorld) :
    Except CosmkErr (LoopDevice × Mountpoint) × List String :=
  match LoopDevice.enter cwd
      (LoopDevice.init cwd self.squashfile none true) w.loop with
  | (.error e, det) => (.error e, det)
  | (.ok ld, _) =>
    match ld.device with
    | none =>
      -- `CosmkError` raised, and the cleanup `__exit__` raises again
      -- because no device is recorded; nothing is detached.
      (.error (.cosmkError noDeviceAttrMsg), [])
    | some d =>
      match Mountpoint.init cwd d self.mountpoint (some "squashfs")
          (some ["ro"]) with
      | .error e =>
        match LoopDevice.exit ld w.detachResult with
        | (.error e2, det) => (.error e2, det)
        | (.ok (), det) => (.error e, det)
      | .ok mp =>
        match w.mountResult with
        | .error e =>
          match LoopDevice.exit ld w.detachResult with
          | (.error e2, det) => (.error e2, det)
          | (.ok (), det) => (.error e, det)
        | .ok () => (.ok (ld, mp), [])

/-! ## `sdk.py`: `Sdk.session` command orchestration -/

/-- Run a list of commands in order through the command oracle, stopping
at the first failure; returns the commands actually attempted and the
final outcome. -/
def runCmds (runRes : String → Except CosmkErr Unit) :
    List String → List String × Except CosmkErr Unit
  | [] => ([], .ok ())
  | c :: rest =>
    match runRes c with
    | .error e => ([c], .error e)
    | .ok () =>
      let r := runCmds runRes rest
      (c :: r.1, r.2)

/-- Command orchestration of `Sdk.session` (the
`contextlib.contextmanager` generator): run the prelude commands (a
failure aborts entry), then the body; the postlude commands after the
`yield` run only when the body did not raise, because no `try/finally`
protects the `yield`.  Returns the commands attempted and the outcome
visible to the caller. -/
def Sdk.sessionExec (runRes : String → Except CosmkErr Unit)
    (prelude postlude : List String) (body : Except CosmkErr Unit) :
    List String × Except CosmkErr Unit :=
  match runCmds runRes prelude with
  | (t, .error e) => (t, .error e)
  | (t, .ok ()) =>
    match body with
    | .error e => (t, .error e)
    | .ok () =>
      let r := runCmds runRes postlude
      (t ++ r.1, r.2)

/-! ## Concrete instances used by the counterexamples and witnesses -/

/-- Does the computation's outcome satisfy the given error classifier? -/
def Except.errSatisfies {α : Type} (p : CosmkErr → Bool) :
    Except CosmkErr α → Bool
  | .error e => p e
  | .ok _ => false

/-- A caller-supplied bind mount of the repository at `/mnt`, as
`Sdk.container_mountpoints` builds it. -/
def sdkRepoMount : ContainerMountpoint :=
  { source := "/repo", target := "/mnt", type := none,
    options := some ["bind", "ro"] }

/-- A container carrying one caller-supplied additional mountpoint. -/
def containerWithSdkMount : Container :=
  { name := "sdk.run", rootfs := "/cache/rootfs.squashfs",
    hostname := "sdk.run", readonly_root := false,
    shared_host_netns := false, capabilities := defaultCapabilities,
    additional_mountpoints := [sdkRepoMount], device_bindings := [],
    default_env := defaultEnv }

/-- Command oracle under which every external command succeeds. -/
def allCmdsSucceed : String → Except CosmkErr Unit := fun _ => .ok ()

/-- A plain writable container named `test.1`. -/
def testContainer : Container :=
  { name := "test.1", rootfs := "/cache/test.squashfs", hostname := "test.1",
    readonly_root := false, shared_host_netns := false,
    capabilities := defaultCapabilities, additional_mountpoints := [],
    device_bindings := [], default_env := defaultEnv }

/-- A session object kept around after `Container.session` closed and
deleted its bundle directory. -/
def closedSession : ContainerSession :=
  { container := testContainer,
    bundle_dir := "/repo/run/containers/test.1.k3abc",
    runc_container_name := "test.1.k3abc" }

/-- World of a `run` invocation after close: runc is available but the
bundle directory is gone. -/
def closedRunWorld : RunWorld :=
  { runcBin := some "runc", bundleDirExists := false, runcRunResult := .ok () }

/-- A loop device constructed without an explicit device node. -/
def loopNoDeviceArg : LoopDevice :=
  LoopDevice.init "/" "/cache/img.squashfs" none true

/-- A post-attach scan that finds no loop device at all. -/
def loopEmptyTableWorld : LoopWorld := { attachResult := .ok (), table := [] }

/-- A post-attach scan with two entries backed by the same file. -/
def loopTwoMatchWorld : LoopWorld :=
  { attachResult := .ok (),
    table := [{ backfile := "/cache/img.squashfs", device := some "/dev/loop0",
                readonly := true },
              { backfile := "/cache/img.squashfs", device := some "/dev/loop3",
                readonly := true }] }

/-- A squashfs mount about to be entered. -/
def sqWitnessMount : SquashfsMount :=
  SquashfsMount.init "/" "/cache/img.squashfs" "/mnt/sq"

/-- World where the loop attach succeeds (node `/dev/loop1`) but the
squashfs mount command fails. -/
def sqWitnessWorld : SquashfsWorld :=
  { loop := { attachResult := .ok (),
              table := [{ backfile := "/cache/img.squashfs",
                          device := some "/dev/loop1", readonly := true }] },
    mountResult := .error (.systemCommandError
      ["mount", "-t", "squashfs", "-o", "ro", "/dev/loop1", "/mnt/sq"]
      "exit 32"),
    detachResult := .ok () }

/-- A session over a read-only rootfs. -/
def readonlyRootSession : ContainerSession :=
  { container := { testContainer with readonly_root := true },
    bundle_dir := "/repo/run/containers/test.1.ro",
    runc_container_name := "test.1.ro" }

/-- A session over a writable (overlay-backed) rootfs. -/
def writableRootSession : ContainerSession :=
  { container := testContainer,
    bundle_dir := "/repo/run/containers/test.1.rw",
    runc_container_name := "test.1.rw" }

/-- Snapshot world: valid source directory, pre-existing output file,
successful compression. -/
def snapshotFsWorld : FsWorld :=
  { sourceIsDir := true, outputExists := true, mksquashfsResult := .ok () }

/-! ## Claims -/

/-- C1 counterexample: a container with one caller-supplied mountpoint
lists that mountpoint first; the required system mountpoints follow it
instead of preceding it. -/
theorem container_required_mountpoints_not_ahead_cex :
    containerWithSdkMount.mountpoints.head? = some sdkRepoMount ∧
    sdkRepoMount ∈ containerWithSdkMount.additional_mountpoints ∧
    sdkRepoMount ∉ Container.required_mountpoints ∧
    Container.required_mountpoints ≠ [] := by decide

/-- C1 amended: the mountpoints list emitted into the runtime
configuration is the caller-supplied additional mountpoints followed by
the fixed required system mountpoints (required after, not ahead). -/
theorem container_mountpoints_additional_then_required (c : Container) :
    c.mountpoints =
      c.additional_mountpoints ++ Container.required_mountpoints :=
  rfl

/-- C2 counterexample: with a successful entry (empty prelude) and one
postlude command, a failing body makes `Sdk.session` skip the postlude
entirely; the command trace is empty and only the body error is
reported. -/
theorem sdk_session_postlude_skipped_cex :
    Sdk.sessionExec allCmdsSucceed [] ["postlude-cmd"]
        (.error (.systemCommandError ["build"] "exit 1")) =
      ([], .error (.systemCommandError ["build"] "exit 1")) ∧
    (Sdk.sessionExec allCmdsSucceed [] ["postlude-cmd"]
        (.error (.systemCommandError ["build"] "exit 1"))).1.contains
      "postlude-cmd" = false := by
  decide

/-- C2 amended: when the body raises after the prelude succeeded, the
postlude commands are not run at all; the body failure alone propagates
and the command trace stays the prelude trace. -/
theorem sdk_session_body_error_skips_postlude
    (runRes : String → Except CosmkErr Unit) (prelude postlude : List String)
    (t : List String) (e : CosmkErr)
    (h : runCmds runRes prelude = (t, .ok ())) :
    Sdk.sessionExec runRes prelude postlude (.error e) = (t, .error e) := by
  unfold Sdk.sessionExec
  rw [h]

/-- C2 witness: concrete instance of the amended claim. -/
theorem sdk_session_body_error_skips_postlude_witness :
    Sdk.sessionExec allCmdsSucceed ["prelude-cmd"] ["postlude-cmd"]
        (.error (.cosmkError "body raised")) =
      (["prelude-cmd"], .error (.cosmkError "body raised")) :=
  sdk_session_body_error_skips_postlude allCmdsSucceed ["prelude-cmd"]
    ["postlude-cmd"] ["prelude-cmd"] (.cosmkError "body raised") rfl

/-- C3 counterexample: running a command through a session whose bundle
directory has been torn down fails with `FileNotFoundError` while writing
`config.json`; no `SessionStateError` is raised (no such class exists in
the code). -/
theorem containersession_run_after_close_cex :
    ContainerSession.run closedSession closedRunWorld ["true"] "/" [] false
        (0, 0) =
      .error (.fileNotFoundError
        "/repo/run/containers/test.1.k3abc/config.json") ∧
    Except.errSatisfies CosmkErr.isSessionStateErr
      (ContainerSession.run closedSession closedRunWorld ["true"] "/" []
        false (0, 0)) = false := by
  exact ⟨rfl, rfl⟩

/-- C3 amended: `run` after close performs no session-state check; with a
runc binary available and the bundle directory removed, it raises
`FileNotFoundError` for the `config.json` it tries to serialize. -/
theorem containersession_run_after_close_fileNotFound
    (sess : ContainerSession) (w : RunWorld) (bin : String)
    (command : List String) (cwd : String) (env : List (String × String))
    (terminal : Bool) (user : Int × Int)
    (hbin : w.runcBin = some bin) (hclosed : w.bundleDirExists = false) :
    ContainerSession.run sess w command cwd env terminal user =
      .error (.fileNotFoundError (sess.bundle_dir ++ "/config.json")) := by
  unfold ContainerSession.run
  rw [hbin, hclosed]
  simp

/-- C3 witness: concrete instance of the amended claim. -/
theorem containersession_run_after_close_fileNotFound_witness :
    ContainerSession.run closedSession
        { runcBin := some "docker-runc", bundleDirExists := false,
          runcRunResult := .ok () } ["ls"] "/" [] false (0, 0) =
      .error (.fileNotFoundError
        "/repo/run/containers/test.1.k3abc/config.json") := by
  have h := containersession_run_after_close_fileNotFound closedSession
    { runcBin := some "docker-runc", bundleDirExists := false,
      runcRunResult := .ok () } "docker-runc" ["ls"] "/" [] false (0, 0)
    rfl rfl
  exact h

/-- C4 counterexample: the generic `Mountpoint` accepts a relative,
unnormalized target and silently stores its `abspath` normalization
instead of raising. -/
theorem mountpoint_relative_target_accepted_cex :
    Mountpoint.init "/x" "src" "foo/../bar" none none =
      .ok { source := "src", target := "/x/bar", type := none,
            options := none } := rfl

/-- C4 amended: only `ContainerMountpoint` rejects a target that is not
absolute and normalized; the generic `Mountpoint` instead normalizes the
target through `os.path.abspath` before storing it. -/
theorem mount_target_validation_split (cwd source target : String)
    (type : Option String) (options : Option (List String))
    (hrel : abspath cwd target ≠ target) :
    ContainerMountpoint.init cwd source target type options =
      .error (.valueError "target must be an absolute and normalized path") ∧
    ∀ m, Mountpoint.init cwd source target type options = .ok m →
      m.target = abspath cwd target := by
  constructor
  · unfold ContainerMountpoint.init
    rw [if_pos hrel]
  · intro m hm
    unfold Mountpoint.init at hm
    split at hm
    · cases hm
    · cases hm
      rfl

/-- C4 witness: concrete instance of the amended claim. -/
theorem mount_target_validation_split_witness :
    ContainerMountpoint.init "/x" "src" "rel/./target" none none =
      .error (.valueError "target must be an absolute and normalized path") :=
  (mount_target_validation_split "/x" "src" "rel/./target" none none
    (by decide)).1

/-- The squashfs mount entry construction inside `SquashfsMount.__enter__`
never fails: its options are the fixed list `["ro"]`. -/
theorem squashfs_mountpoint_init_ok (cwd d tgt : String) :
    Mountpoint.init cwd d tgt (some "squashfs") (some ["ro"]) =
      .ok { source := d, target := abspath cwd tgt, type := some "squashfs",
            options := some ["ro"] } := rfl

/-- C5: when the loop-device attach succeeded (yielding device `d`) and
the squashfs mount step fails, `SquashfsMount.__enter__` detaches the
loop device exactly once (a single `losetup -d d`) before the mount
error propagates. -/
theorem squashfsmount_mount_failure_detaches_once (cwd : String)
    (self : SquashfsMount) (w : SquashfsWorld) (ld : LoopDevice)
    (d : String) (e : CosmkErr)
    (hld : LoopDevice.enter cwd
      (LoopDevice.init cwd self.squashfile none true) w.loop = (.ok ld, []))
    (hdev : ld.device = some d)
    (hmnt : w.mountResult = .error e)
    (hdet : w.detachResult = .ok ()) :
    SquashfsMount.enter cwd self w = (.error e, [d]) := by
  unfold SquashfsMount.enter
  rw [hld]
  simp only [hdev, squashfs_mountpoint_init_ok, hmnt, LoopDevice.exit, hdet]

/-- C5 witness: concrete run of the mount-failure cleanup. -/
theorem squashfsmount_mount_failure_detaches_once_witness :
    SquashfsMount.enter "/" sqWitnessMount sqWitnessWorld =
      (.error (.systemCommandError
        ["mount", "-t", "squashfs", "-o", "ro", "/dev/loop1", "/mnt/sq"]
        "exit 32"), ["/dev/loop1"]) := by
  exact squashfsmount_mount_failure_detaches_once "/" sqWitnessMount
    sqWitnessWorld
    { backfile := "/cache/img.squashfs", device := some "/dev/loop1",
      readonly := true }
    "/dev/loop1"
    (.systemCommandError
      ["mount", "-t", "squashfs", "-o", "ro", "/dev/loop1", "/mnt/sq"]
      "exit 32")
    (by decide) rfl rfl rfl

/-- C6 counterexample: the attach succeeded but the rescan finds no
matching table entry; the failure that propagates is the generic
`CosmkError` raised by the cleanup (not an environment error) and no
device is detached. -/
theorem loopdevice_no_match_cex :
    LoopDevice.enter "/" loopNoDeviceArg loopEmptyTableWorld =
      (.error (.cosmkError noDeviceAttrMsg), []) ∧
    Except.errSatisfies CosmkErr.isEnvironmentError
      (LoopDevice.enter "/" loopNoDeviceArg loopEmptyTableWorld).1 =
      false := by
  exact ⟨rfl, rfl⟩

/-- C6 amended: node discovery scans the live loop-device table in
reverse and takes the first entry whose backing file matches (uniqueness
is not checked); when no entry matches, the cleanup attempt itself raises
a generic `CosmkError` (the device attribute is still unset) which
replaces the original lookup error, and nothing is detached. -/
theorem loopdevice_discovery_behavior (cwd : String) (self : LoopDevice)
    (w : LoopWorld) (hdev : self.device = none)
    (hatt : w.attachResult = .ok ()) :
    (w.table.reverse.find? (fun l => l.backfile == self.backfile) = none →
      LoopDevice.enter cwd self w =
        (.error (.cosmkError noDeviceAttrMsg), [])) ∧
    (∀ l d,
      w.table.reverse.find? (fun l => l.backfile == self.backfile) = some l →
      l.device = some d →
      LoopDevice.enter cwd self w =
        (.ok { self with device := some (abspath cwd d) }, [])) := by
  unfold LoopDevice.enter
  rw [hatt, hdev]
  constructor
  · intro h
    simp only [h]
  · intro l d hl hd
    simp only [hl, hd]

/-- C6 witness: with two matching table entries, discovery picks the last
one (first in reverse scan) with no uniqueness failure. -/
theorem loopdevice_discovery_behavior_witness :
    LoopDevice.enter "/" loopNoDeviceArg loopTwoMatchWorld =
      (.ok { backfile := "/cache/img.squashfs", device := some "/dev/loop3",
             readonly := true }, []) := by
  have h := (loopdevice_discovery_behavior "/" loopNoDeviceArg
    loopTwoMatchWorld rfl rfl).2
    { backfile := "/cache/img.squashfs", device := some "/dev/loop3",
      readonly := true }
    "/dev/loop3" (by decide) rfl
  exact h

/-- C7: snapshotting a read-only session raises ContainerSnapshotError
with no filesystem action at all (no output produced, no pre-existing
file removed); on a writable session it removes a pre-existing output
file and runs the mksquashfs compression of the session rootfs into the
given path. -/
theorem containersession_snapshot_behavior (sess : ContainerSession)
    (w : FsWorld) (path : String) :
    (sess.container.readonly_root = true →
      ContainerSession.snapshot sess w path =
        ([], .error (.containerSnapshotError
          "Underlying container has a readonly rootfs. What do you expect to be different from the image that originated this container?"))) ∧
    (sess.container.readonly_root = false → w.sourceIsDir = true →
      w.mksquashfsResult = .ok () →
      ContainerSession.snapshot sess w path =
        ((if w.outputExists then [FsAction.removeFile path] else []) ++
          [FsAction.runCmd
            (["mksquashfs", sess.bundle_dir ++ "/rootfs", path,
              "-comp", "gzip", "-xattrs", "-noI", "-noD", "-noF", "-noX"])],
         .ok ())) := by
  constructor
  · intro hro
    unfold ContainerSession.snapshot
    simp only [hro]
    rfl
  · intro hro hdir hres
    unfold ContainerSession.snapshot mksquashfs
    simp only [hro, hdir, hres]
    rfl

/-- C7 witness: both branches at concrete inputs — the read-only refusal
with empty action trace, and the writable compression with the removal of
the pre-existing output followed by the mksquashfs invocation. -/
theorem containersession_snapshot_behavior_witness :
    ContainerSession.snapshot readonlyRootSession snapshotFsWorld
        "/out/snap.squashfs" =
      ([], .error (.containerSnapshotError
        "Underlying container has a readonly rootfs. What do you expect to be different from the image that originated this container?")) ∧
    ContainerSession.snapshot writableRootSession snapshotFsWorld
        "/out/snap.squashfs" =
      ([FsAction.removeFile "/out/snap.squashfs",
        FsAction.runCmd
          ["mksquashfs", "/repo/run/containers/test.1.rw/rootfs",
           "/out/snap.squashfs", "-comp", "gzip", "-xattrs", "-noI", "-noD",
           "-noF", "-noX"]],
       .ok ()) := by
  constructor
  · exact (containersession_snapshot_behavior readonlyRootSession
      snapshotFsWorld "/out/snap.squashfs").1 rfl
  · have h := (containersession_snapshot_behavior writableRootSession
      snapshotFsWorld "/out/snap.squashfs").2 rfl rfl rfl
    exact h

/-- C8: when any option string contains a comma, both mount entry
constructors raise ValueError (the specification's ValidationError) and
the construct-then-mount pipeline issues no system call. -/
theorem mount_options_comma_rejected (cwd source target : String)
    (type : Option String) (options : List String)
    (h : ∃ o ∈ options, o.data.contains ',' = true) :
    Mountpoint.init cwd source target type (some options) =
      .error (.valueError commaOptionMsg) ∧
    (∃ msg, ContainerMountpoint.init cwd source target type (some options) =
      .error (.valueError msg)) ∧
    mountpointEnterCmds cwd
      (Mountpoint.init cwd source target type (some options)) = [] := by
  have hc : commaInOptions (some options) = true := by
    simpa [commaInOptions, List.any_eq_true] using h
  refine ⟨?_, ?_, ?_⟩
  · unfold Mountpoint.init
    simp only [hc]
    rfl
  · unfold ContainerMountpoint.init
    by_cases ht : abspath cwd target ≠ target
    · exact ⟨"target must be an absolute and normalized path",
        by rw [if_pos ht]⟩
    · refine ⟨commaOptionMsg, ?_⟩
      rw [if_neg ht]
      simp only [hc]
      rfl
  · unfold mountpointEnterCmds Mountpoint.init
    simp only [hc]
    rfl

/-- C8 witness: a tmpfs option list carrying a comma is rejected by both
constructors before any command is issued. -/
theorem mount_options_comma_rejected_witness :
    Mountpoint.init "/" "tmpfs" "/tmp" (some "tmpfs")
        (some ["nodev,nosuid"]) = .error (.valueError commaOptionMsg) ∧
    mountpointEnterCmds "/"
      (Mountpoint.init "/" "tmpfs" "/tmp" (some "tmpfs")
        (some ["nodev,nosuid"])) = [] := by
  have h := mount_options_comma_rejected "/" "tmpfs" "/tmp" (some "tmpfs")
    ["nodev,nosuid"] ⟨"nodev,nosuid", by decide, by decide⟩
  exact ⟨h.1, h.2.2⟩

/-- C9: the namespaces to unshare are exactly pid, ipc, uts and mount,
plus network exactly when the container does not share the host network
namespace. -/
theorem container_unshared_namespaces_spec (c : Container) :
    c.unshared_namespaces =
      ({"pid", "ipc", "uts", "mount"} : Finset String) ∪
        (if c.shared_host_netns then ∅ else {"network"}) := by
  cases h : c.shared_host_netns <;>
    simp only [Container.unshared_namespaces, h] <;> decide

/-- C10: the generated runc configuration always declares the root as
path `rootfs` with `readonly` false, whatever the container (including a
readonly_root one) and whatever the invocation tuple. -/
theorem runc_config_root_never_readonly (c : Container)
    (command : List String) (env : List (String × String)) (cwd : String)
    (terminal : Bool) (user : Int × Int) :
    (c.runcConfig command env cwd terminal user).root =
      { path := "rootfs", readonly := false } := rfl
